import Mathlib

/-!
Verification of `src/figures/git_commit_plots.py`.

The script is a straight-line sequence of plotting calls.  We embed it as a
pure program that emits a trace of drawing operations (`Op`).  Python dict
subscripting (`branch_y_positions[...]`, `commit_colors[...]`) can raise
`KeyError`, so every lookup is modelled with `Option` and the scene builders
are `Option (List Op)` values threaded through the `Option` monad, exactly
mirroring the order of evaluation at each call site of the source.
-/

namespace GitCommitPlots

/-- One drawing / output operation issued by the script, at the granularity of
the matplotlib and IO primitives the source actually calls. -/
inductive Op where
  | subplots (w h : Rat)
  | suptitle (title : String) (fontsize : Nat)
  | text (x y : Rat) (s : String)
  | addCircle (x y r : Rat) (color : String)
  | plotLine (x1 x2 ya yb : Rat) (fmt : String) (linewidth : Rat)
  | addArrow (x1 y1 x2 y2 : Rat) (arrowstyle color : String) (linewidth : Rat)
      (connection : String)
  | setXlim (a b : Rat)
  | setYlim (a b : Rat)
  | axisOff
  | tightLayout
  | savefig (fname : String) (dpi : Nat) (bboxInches : String)
  | printLine (s : String)
  deriving DecidableEq, Repr

/-- Source line 6: `branch_y_positions = {'origin/main': 3, 'local/main': 2, 'testing': 1}`,
kept in insertion order. -/
def branch_y_positions : List (String × Rat) :=
  [("origin/main", 3), ("local/main", 2), ("testing", 1)]

/-- Source lines 7-8: `commit_colors = {'A': ..., 'B': ..., 'C': ..., 'D': ..., 'M': ...}`,
kept in insertion order. -/
def commit_colors : List (String × String) :=
  [("A", "lightblue"), ("B", "lightgreen"), ("C", "lightsalmon"),
   ("D", "plum"), ("M", "gold")]

/-- Python dict subscript `d[k]`: `some` value on a present key, `none` models
the `KeyError` branch. -/
def dictGet (d : List (String × α)) (k : String) : Option α :=
  (d.find? (fun p => p.1 == k)).map (fun p => p.2)

/-- Source lines 11-14, `draw_commit`: a filled circle of radius 0.3 plus the
centered label text. -/
def draw_commit (x y : Rat) (label color : String) : List Op :=
  [Op.addCircle x y (mkRat 3 10) color, Op.text x y label]

/-- Source lines 17-18, `draw_branch_line`: `ax.plot([x_start, x_end], [y, y], 'k-', linewidth=2)`. -/
def draw_branch_line (x_start x_end y : Rat) : List Op :=
  [Op.plotLine x_start x_end y y "k-" 2]

/-- Source lines 21-25, `draw_arrow`: a red curved `FancyArrowPatch`. -/
def draw_arrow (x_start y_start x_end y_end : Rat) : List Op :=
  [Op.addArrow x_start y_start x_end y_end "->" "red" (mkRat 15 10) "arc3,rad=0.3"]

/-- Source lines 28-47, `setup_plot`: new figure, title, one branch label per
entry of `branch_y_positions`, axis bounds, axis off, then the legend: for the
i-th palette entry a swatch circle of radius 0.2 at (i+0.7, 0.3), the commit
letter inside, and the caption below. -/
def setup_plot (title : String) : List Op :=
  [Op.subplots 8 4, Op.suptitle title 14]
    ++ branch_y_positions.map (fun p => Op.text (mkRat 5 10) p.2 p.1)
    ++ [Op.setXlim 0 6, Op.setYlim 0 4, Op.axisOff]
    ++ commit_colors.enum.flatMap (fun q =>
        [Op.addCircle ((q.1 : Rat) + mkRat 7 10) (mkRat 3 10) (mkRat 2 10) q.2.2,
         Op.text ((q.1 : Rat) + mkRat 7 10) (mkRat 3 10) q.2.1,
         Op.text ((q.1 : Rat) + mkRat 7 10) 0 ("Commit " ++ q.2.1)])

/-- Call pattern `draw_branch_line(ax, x_start, x_end, branch_y_positions[branch])`:
the row lookup happens at the call site. -/
def branch_line_at (x_start x_end : Rat) (branch : String) : Option (List Op) := do
  let y ← dictGet branch_y_positions branch
  pure (draw_branch_line x_start x_end y)

/-- Call pattern `draw_commit(ax, x, branch_y_positions[branch], label, commit_colors[colorKey])`:
both lookups happen at the call site; in the source the label literal and the
color key literal are written separately. -/
def commit_at (x : Rat) (branch label colorKey : String) : Option (List Op) := do
  let y ← dictGet branch_y_positions branch
  let c ← dictGet commit_colors colorKey
  pure (draw_commit x y label c)

/-- Call pattern `draw_arrow(ax, x_start, branch_y_positions[b1], x_end, branch_y_positions[b2])`. -/
def arrow_at (x_start : Rat) (startBranch : String) (x_end : Rat)
    (endBranch : String) : Option (List Op) := do
  let y1 ← dictGet branch_y_positions startBranch
  let y2 ← dictGet branch_y_positions endBranch
  pure (draw_arrow x_start y1 x_end y2)

/-- Sequences the drawing statements of a scene in program order: each part is
evaluated in turn and its operations appended; a failed lookup (`none`, the
`KeyError` of the corresponding Python statement) aborts the run, exactly as an
uncaught exception would. -/
def seqParts : List (Option (List Op)) → Option (List Op)
  | [] => some []
  | p :: rest => p.bind (fun ops => (seqParts rest).map (fun more => ops ++ more))

/-- Source lines 50-66: scene 1, "Step 1: Initial State". -/
def scene1 : Option (List Op) :=
  (seqParts
    [branch_line_at 1 5 "origin/main",
     branch_line_at 1 2 "local/main",
     branch_line_at 1 3 "testing",
     commit_at 1 "origin/main" "A" "A",
     commit_at 2 "origin/main" "B" "B",
     commit_at 3 "origin/main" "C" "C",
     commit_at 1 "local/main" "A" "A",
     commit_at 1 "testing" "A" "A",
     commit_at 2 "testing" "D" "D"]).map
    (fun body => setup_plot "Step 1: Initial State" ++ body
      ++ [Op.tightLayout, Op.savefig "git_workflow_step1.png" 300 "tight"])

/-- Source lines 69-87: scene 2, "Step 2: After git pull origin main". -/
def scene2 : Option (List Op) :=
  (seqParts
    [branch_line_at 1 5 "origin/main",
     branch_line_at 1 4 "local/main",
     branch_line_at 1 3 "testing",
     commit_at 1 "origin/main" "A" "A",
     commit_at 2 "origin/main" "B" "B",
     commit_at 3 "origin/main" "C" "C",
     commit_at 1 "local/main" "A" "A",
     commit_at 2 "local/main" "B" "B",
     commit_at 3 "local/main" "C" "C",
     commit_at 1 "testing" "A" "A",
     commit_at 2 "testing" "D" "D"]).map
    (fun body => setup_plot "Step 2: After git pull origin main" ++ body
      ++ [Op.tightLayout, Op.savefig "git_workflow_step2.png" 300 "tight"])

/-- Source lines 90-113: scene 3, "Step 3: After git merge main", with the two
merge arrows of lines 109-110. -/
def scene3 : Option (List Op) :=
  (seqParts
    [branch_line_at 1 5 "origin/main",
     branch_line_at 1 4 "local/main",
     branch_line_at 1 5 "testing",
     commit_at 1 "origin/main" "A" "A",
     commit_at 2 "origin/main" "B" "B",
     commit_at 3 "origin/main" "C" "C",
     commit_at 1 "local/main" "A" "A",
     commit_at 2 "local/main" "B" "B",
     commit_at 3 "local/main" "C" "C",
     commit_at 1 "testing" "A" "A",
     commit_at 2 "testing" "D" "D",
     commit_at 4 "testing" "M" "M",
     arrow_at 3 "local/main" 4 "testing",
     arrow_at 2 "testing" 4 "testing"]).map
    (fun body => setup_plot "Step 3: After git merge main" ++ body
      ++ [Op.tightLayout, Op.savefig "git_workflow_step3.png" 300 "tight"])

/-- The whole script, source lines 50-118: the three scenes in order followed by
the four `print` calls of lines 115-118. -/
def script : Option (List Op) :=
  (seqParts [scene1, scene2, scene3]).map (fun scenes => scenes ++
    [Op.printLine "Created three separate visualization images:",
     Op.printLine "1. git_workflow_step1.png - Initial state",
     Op.printLine "2. git_workflow_step2.png - After git pull origin main",
     Op.printLine "3. git_workflow_step3.png - After git merge main"])

/-- An execution environment offering the sources of nondeterminism a Python
process could in principle consult: a random stream and a clock. -/
structure Env where
  randomStream : Nat → Nat
  clock : Nat

/-- Running the script in an environment.  The source never consults randomness
or the clock, so the embedding ignores `Env` entirely. -/
def run (_env : Env) : Option (List Op) := script

/-- Trace of scene 1 (the script evaluates all lookups successfully; see
`c9_all_palette_lookups_succeed`). -/
def scene1Trace : List Op := scene1.getD []

/-- Trace of scene 2. -/
def scene2Trace : List Op := scene2.getD []

/-- Trace of scene 3. -/
def scene3Trace : List Op := scene3.getD []

/-- Trace of the whole script. -/
def scriptTrace : List Op := script.getD []

/-- Branch lines of a trace as (x_start, x_end, row) triples; only
`draw_branch_line` emits `plotLine` ops. -/
def branchLines : List Op → List (Rat × Rat × Rat)
  | [] => []
  | Op.plotLine x1 x2 ya _ _ _ :: rest => (x1, x2, ya) :: branchLines rest
  | _ :: rest => branchLines rest

/-- Row coordinates of the branch lines of a trace, in drawing order. -/
def lineRows (ops : List Op) : List Rat :=
  (branchLines ops).map (fun t => t.2.2)

/-- The x-end coordinates of the branch lines of a trace, in drawing order. -/
def lineXEnds (ops : List Op) : List Rat :=
  (branchLines ops).map (fun t => t.2.1)

/-- Arrows of a trace as (x_start, y_start, x_end, y_end); only `draw_arrow`
emits `addArrow` ops. -/
def arrows : List Op → List (Rat × Rat × Rat × Rat)
  | [] => []
  | Op.addArrow x1 y1 x2 y2 _ _ _ _ :: rest => (x1, y1, x2, y2) :: arrows rest
  | _ :: rest => arrows rest

/-- Commit markers of a trace as (x, y, label, color).  A commit marker is a
radius-0.3 circle immediately followed by its label text (`draw_commit`);
radius-0.2 circles are legend swatches and are skipped together with their
label text. -/
def commitMarkers : List Op → List (Rat × Rat × String × String)
  | Op.addCircle x y r c :: Op.text _ _ s :: rest =>
      if r = mkRat 3 10 then (x, y, s, c) :: commitMarkers rest
      else commitMarkers rest
  | _ :: rest => commitMarkers rest
  | [] => []

/-- Legend swatches of a trace as (x, y, label, color): radius-0.2 circles
paired with the commit letter written inside them (`setup_plot`). -/
def legendSwatches : List Op → List (Rat × Rat × String × String)
  | Op.addCircle x y r c :: Op.text _ _ s :: rest =>
      if r = mkRat 2 10 then (x, y, s, c) :: legendSwatches rest
      else legendSwatches rest
  | _ :: rest => legendSwatches rest
  | [] => []

/-- The (x, y, label) triples of the commit markers of a trace. -/
def commitTriples (ops : List Op) : List (Rat × Rat × String) :=
  (commitMarkers ops).map (fun m => (m.1, m.2.1, m.2.2.1))

/-- The labels of the commit markers of a trace, in drawing order. -/
def commitLabels (ops : List Op) : List String :=
  (commitMarkers ops).map (fun m => m.2.2.1)

/-- File names written by `plt.savefig`, in order; `savefig` is the only
file-creating operation in the script. -/
def savedFiles : List Op → List String
  | [] => []
  | Op.savefig f _ _ :: rest => f :: savedFiles rest
  | _ :: rest => savedFiles rest

/-- Console lines written by `print`, in order. -/
def printedLines : List Op → List String
  | [] => []
  | Op.printLine s :: rest => s :: printedLines rest
  | _ :: rest => printedLines rest

/-- C1, counterexample.  The claim says scene 2 draws local/main at row 4 and
testing at row 3.  In fact `branch_y_positions` is never reassigned, so scene
2's branch-line rows are 3, 2, 1 and no branch line of scene 2 lies at row 4
(or at row 3 other than origin/main's). -/
theorem c1_counterexample :
    lineRows scene2Trace = [3, 2, 1] ∧ (4 : Rat) ∉ lineRows scene2Trace := by
  decide

/-- C1, amended.  Every branch line's row position equals the fixed
branch-position table entry identically in all three scenes: origin/main at
row 3, local/main at row 2, testing at row 1.  The per-scene values the claim
describes as varying rows (local/main 2 then 4 then 4; testing 3 then 3 then 5)
are the lines' x-end coordinates, not their rows. -/
theorem c1_rows_fixed_by_table :
    lineRows scene1Trace = [3, 2, 1] ∧
    lineRows scene2Trace = [3, 2, 1] ∧
    lineRows scene3Trace = [3, 2, 1] ∧
    dictGet branch_y_positions "origin/main" = some 3 ∧
    dictGet branch_y_positions "local/main" = some 2 ∧
    dictGet branch_y_positions "testing" = some 1 ∧
    lineXEnds scene1Trace = [5, 2, 3] ∧
    lineXEnds scene2Trace = [5, 4, 3] ∧
    lineXEnds scene3Trace = [5, 4, 5] := by
  decide

/-- C2.  Each scene draws exactly the literal specified commit markers at their
specified coordinates; in particular scene 1's labels form the multiset
A, A, A, B, C, D. -/
theorem c2_commit_labels_per_scene :
    commitTriples scene1Trace =
      [(1, 3, "A"), (2, 3, "B"), (3, 3, "C"), (1, 2, "A"), (1, 1, "A"), (2, 1, "D")] ∧
    List.Perm (commitLabels scene1Trace) ["A", "A", "A", "B", "C", "D"] ∧
    commitTriples scene2Trace =
      [(1, 3, "A"), (2, 3, "B"), (3, 3, "C"), (1, 2, "A"), (2, 2, "B"), (3, 2, "C"),
       (1, 1, "A"), (2, 1, "D")] ∧
    commitTriples scene3Trace =
      [(1, 3, "A"), (2, 3, "B"), (3, 3, "C"), (1, 2, "A"), (2, 2, "B"), (3, 2, "C"),
       (1, 1, "A"), (2, 1, "D"), (4, 1, "M")] := by
  decide

/-- C3.  Scene 3 contains exactly two arrows, and both end at (4, 1), the
coordinates at which the merge-commit marker labelled M is drawn. -/
theorem c3_two_arrows_end_at_merge :
    arrows scene3Trace = [(3, 2, 4, 1), (2, 1, 4, 1)] ∧
    (arrows scene3Trace).map (fun a => (a.2.2.1, a.2.2.2)) = [(4, 1), (4, 1)] ∧
    (4, 1, "M") ∈ commitTriples scene3Trace := by
  decide

/-- C4.  The script consults no input, randomness, or clock: running it in any
two environments issues the identical sequence of drawing and file-write
operations, a fixed literal trace.  Byte-identical image files follow for any
renderer that is a function of this operation sequence. -/
theorem c4_deterministic :
    ∀ e1 e2 : Env, run e1 = run e2 ∧ run e1 = some scriptTrace :=
  fun _ _ => ⟨rfl, rfl⟩

/-- C5.  One run performs exactly three file writes, named exactly
git_workflow_step1.png, git_workflow_step2.png, git_workflow_step3.png;
`Op.savefig` is the only file-creating operation the script issues. -/
theorem c5_three_output_files :
    savedFiles scriptTrace =
      ["git_workflow_step1.png", "git_workflow_step2.png", "git_workflow_step3.png"] := by
  decide

/-- C6.  Every scene's legend strip contains exactly five swatches, one per
palette entry, drawn in the palette's insertion order A, B, C, D, M. -/
theorem c6_legend_five_swatches_in_order :
    (legendSwatches scene1Trace).map (fun q => (q.2.2.1, q.2.2.2)) = commit_colors ∧
    (legendSwatches scene2Trace).map (fun q => (q.2.2.1, q.2.2.2)) = commit_colors ∧
    (legendSwatches scene3Trace).map (fun q => (q.2.2.1, q.2.2.2)) = commit_colors ∧
    (legendSwatches scene1Trace).length = 5 ∧
    commit_colors.map (fun p => p.1) = ["A", "B", "C", "D", "M"] := by
  decide

/-- C7, counterexample.  The claim says the console output is exactly three
confirmation lines, each naming an output file; the script actually prints
four lines, the first being a header naming no file. -/
theorem c7_counterexample :
    (printedLines scriptTrace).length ≠ 3 ∧
    "Created three separate visualization images:" ∈ printedLines scriptTrace := by
  decide

/-- C7, amended.  The console output consists of exactly four fixed lines: a
header followed by three confirmation lines, each naming one output file and
its narrative meaning. -/
theorem c7_console_output :
    printedLines scriptTrace =
      ["Created three separate visualization images:",
       "1. git_workflow_step1.png - Initial state",
       "2. git_workflow_step2.png - After git pull origin main",
       "3. git_workflow_step3.png - After git merge main"] := by
  decide

/-- C8.  Invariant over the whole run: every commit marker's fill color is the
shared palette's entry for its label, and every branch line's row is the shared
position table's entry for some branch name.  The trace model is append-only,
so no drawn entity is modified after creation. -/
theorem c8_palette_and_row_invariant :
    ((commitMarkers scriptTrace).all
      (fun m => dictGet commit_colors m.2.2.1 == some m.2.2.2)) = true ∧
    ((branchLines scriptTrace).all
      (fun t => branch_y_positions.any (fun p => p.2 == t.2.2))) = true := by
  decide

/-- C9.  The script evaluates every dict lookup successfully (`script` is
`some`, i.e. no `KeyError` path is ever taken), and every commit-marker label
drawn is a key of the fixed palette. -/
theorem c9_all_palette_lookups_succeed :
    script.isSome = true ∧
    ((commitLabels scriptTrace).all
      (fun s => commit_colors.any (fun p => p.1 == s))) = true := by
  decide

/-- C10.  The narrative is monotone: scene 2's commit triples are scene 1's
with exactly (2,2,B) and (3,2,C) inserted on the local/main row, and scene 3's
are scene 2's with exactly the merge marker (4,1,M) appended; the additions are
genuinely new, and no earlier commit is dropped or moved. -/
theorem c10_monotone_narrative :
    commitTriples scene2Trace =
      (commitTriples scene1Trace).take 4 ++ [(2, 2, "B"), (3, 2, "C")] ++
        (commitTriples scene1Trace).drop 4 ∧
    commitTriples scene3Trace = commitTriples scene2Trace ++ [(4, 1, "M")] ∧
    List.Perm (commitTriples scene2Trace)
      (commitTriples scene1Trace ++ [(2, 2, "B"), (3, 2, "C")]) ∧
    (2, 2, "B") ∉ commitTriples scene1Trace ∧
    (3, 2, "C") ∉ commitTriples scene1Trace ∧
    (4, 1, "M") ∉ commitTriples scene2Trace := by
  decide

end GitCommitPlots
